import Mathlib

/-!
Shallow embedding of the digital-document-scanner detection and
rectification engine: the geometry kernel (shoelace area, convexity,
side-length estimation), the two corner-ordering policies, the detection
quality evaluator, the temporal stability tracker of the camera
component, and the output-dimension normalization of the rectification
step.  Coordinates and counters are modelled as exact rationals and
integers; Euclidean lengths use `Real.sqrt`.
-/

/-- A point in frame pixel coordinates (source: `{x: number; y: number}`). -/
structure Pt where
  x : ℚ
  y : ℚ
deriving DecidableEq, Repr

/-- JS `Math.sign`: -1 for negative, 1 for positive, 0 for zero. -/
def jsSign (q : ℚ) : ℤ :=
  if q < 0 then -1 else if 0 < q then 1 else 0

/-- JS `Math.round`: round half toward positive infinity. -/
def jsRound (q : ℚ) : ℤ := ⌊q + 1 / 2⌋

/-- JS `Math.hypot` on two arguments. -/
noncomputable def jsHypot (a b : ℚ) : ℝ :=
  Real.sqrt ((a : ℝ) ^ 2 + (b : ℝ) ^ 2)

/-- Shoelace loop of `calculateQuadrilateralArea`: sum over consecutive
index pairs (wrapping around) of `x_i*y_j - x_j*y_i`. -/
def shoelaceSum (corners : List Pt) : ℚ :=
  ((corners.zip (corners.rotate 1)).map
    (fun p => p.1.x * p.2.y - p.2.x * p.1.y)).sum

/-- `calculateQuadrilateralArea`: absolute shoelace sum halved. -/
def calculateQuadrilateralArea (corners : List Pt) : ℚ :=
  |shoelaceSum corners| / 2

/-- `calculateQuadrilateralDimensions`: width is the mean of the two
horizontal opposite side lengths, height the mean of the two vertical
opposite side lengths, each via `Math.hypot`. -/
noncomputable def calculateQuadrilateralDimensions (a b c d : Pt) : ℝ × ℝ :=
  let width1 := jsHypot (b.x - a.x) (b.y - a.y)
  let width2 := jsHypot (c.x - d.x) (c.y - d.y)
  let height1 := jsHypot (d.x - a.x) (d.y - a.y)
  let height2 := jsHypot (c.x - b.x) (c.y - b.y)
  ((width1 + width2) / 2, (height1 + height2) / 2)

/-- Cross product of the edge `p→q` with the edge `q→r`, as computed in
the loop body of `isConvexQuadrilateral`. -/
def crossProd (p q r : Pt) : ℚ :=
  (q.x - p.x) * (r.y - q.y) - (q.y - p.y) * (r.x - q.x)

/-- `isConvexQuadrilateral`: record the `Math.sign` of the first
consecutive-edge cross product, then fail as soon as a later cross
product has a different `Math.sign`; non-4-length input is rejected. -/
def isConvexQuadrilateral (corners : List Pt) : Bool :=
  match corners with
  | [a, b, c, d] =>
    let s0 := jsSign (crossProd a b c)
    jsSign (crossProd b c d) == s0 &&
      jsSign (crossProd c d a) == s0 &&
      jsSign (crossProd d a b) == s0
  | _ => false

/-- `evaluateDetectionQuality` of the camera component: with the frame
dimensions in place of the video element, accept a 4-corner detection iff
the area ratio lies strictly between 0.1 and 0.9, the averaged-side
aspect ratio is within 0.3 of `1/1.414` or of `1.414`, and the corners
form a convex quadrilateral; any other corner count is rejected. -/
def evaluateDetectionQuality (corners : List Pt) (videoWidth videoHeight : ℚ) : Prop :=
  match corners with
  | [a, b, c, d] =>
    let screenArea := videoWidth * videoHeight
    let area := calculateQuadrilateralArea [a, b, c, d]
    let areaRatio := area / screenArea
    let dims := calculateQuadrilateralDimensions a b c d
    let aspectRatio := dims.1 / dims.2
    let idealA4Ratio : ℝ := 1 / 1.414
    let isA4Ratio :=
      |aspectRatio - idealA4Ratio| < 0.3 ∨ |aspectRatio - 1.414| < 0.3
    areaRatio > 0.1 ∧ areaRatio < 0.9 ∧ isA4Ratio ∧
      isConvexQuadrilateral [a, b, c, d] = true
  | _ => False

/-- The acceptance condition exactly as the specification words it: the
shoelace area over the frame area lies strictly between 0.1 and 0.9, the
aspect ratio from averaged opposite side lengths is within 0.3 of a
portrait or landscape A4 proportion, and the convexity test passes. -/
def qualityAcceptSpec (a b c d : Pt) (frameWidth frameHeight : ℚ) : Prop :=
  let areaRatio := calculateQuadrilateralArea [a, b, c, d] / (frameWidth * frameHeight)
  let dims := calculateQuadrilateralDimensions a b c d
  let aspectRatio := dims.1 / dims.2
  (0.1 < areaRatio ∧ areaRatio < 0.9) ∧
    (|aspectRatio - 1 / 1.414| < 0.3 ∨ |aspectRatio - 1.414| < 0.3) ∧
    isConvexQuadrilateral [a, b, c, d] = true

/-- Centroid used by every corner-ordering policy: coordinate means. -/
def centerOf (corners : List Pt) : Pt :=
  ⟨(corners.map (·.x)).sum / corners.length,
   (corners.map (·.y)).sum / corners.length⟩

/-- `getQuadrant` helper of the camera component's `sortCorners`. -/
def getQuadrant (point center : Pt) : ℤ :=
  if point.x < center.x ∧ point.y < center.y then 0
  else if point.x ≥ center.x ∧ point.y < center.y then 1
  else if point.x ≥ center.x ∧ point.y ≥ center.y then 2
  else 3

/-- Distance from a point to the centroid (`Math.hypot` of the
coordinate differences), the tie-break key of the quadrant policy. -/
noncomputable def distToCenter (p center : Pt) : ℝ :=
  jsHypot (p.x - center.x) (p.y - center.y)

/-- Induced "sorts before or ties" relation of the quadrant comparator:
the comparator returns `aQuadrant - bQuadrant` when the quadrants
differ, and `bDist - aDist` (descending distance) within a quadrant; the
relation holds exactly when that comparator value is non-positive. -/
noncomputable def quadrantCmpLe (center a b : Pt) : Prop :=
  if getQuadrant a center = getQuadrant b center then
    distToCenter b center ≤ distToCenter a center
  else
    getQuadrant a center ≤ getQuadrant b center

/-- Camera component `sortCorners` (quadrant policy): a stable sort of
the four corners by quadrant, tie-broken by descending centroid
distance; other lengths are returned unchanged. -/
noncomputable def sortCornersQuadrant (corners : List Pt) : List Pt :=
  if corners.length ≠ 4 then corners
  else
    let center := centerOf corners
    @List.insertionSort Pt (quadrantCmpLe center)
      (fun a b => Classical.propDecidable (quadrantCmpLe center a b)) corners

/-- Stable ascending sort by `x` (the JS `sort((a, b) => a.x - b.x)`). -/
def sortByX (l : List Pt) : List Pt :=
  List.insertionSort (fun a b => a.x ≤ b.x) l

/-- Core assembly of the top/bottom-split ordering in `part_000`:
split at the centroid `y`, sort each half by `x`, then pick first/last
of the top half and last/first of the bottom half, skipping the picks
whose half is too small. -/
def assembleTopBottom (corners : List Pt) : List Pt :=
  let center := centerOf corners
  let top := corners.filter (fun c => c.y < center.y)
  let bottom := corners.filter (fun c => c.y ≥ center.y)
  let topSorted := sortByX top
  let bottomSorted := sortByX bottom
  (if 0 < topSorted.length then [topSorted.getD 0 ⟨0, 0⟩] else []) ++
    (if 1 < topSorted.length then [topSorted.getD (topSorted.length - 1) ⟨0, 0⟩] else []) ++
    (if 0 < bottomSorted.length then [bottomSorted.getD (bottomSorted.length - 1) ⟨0, 0⟩] else []) ++
    (if 1 < bottomSorted.length then [bottomSorted.getD 0 ⟨0, 0⟩] else [])

/-- `sortCorners` of `part_000` (top/bottom-split policy): the assembled
list is returned as-is, whatever its length. -/
def sortCornersTopBottom (corners : List Pt) : List Pt :=
  if corners.length ≠ 4 then corners
  else assembleTopBottom corners

/-- `sortCorners` of the ImageProcessing component: the same assembly,
but guarded — when the assembled list does not have exactly 4 elements
the original input is returned unchanged. -/
def sortCornersImageProcessing (corners : List Pt) : List Pt :=
  if corners.length ≠ 4 then corners
  else
    let sortedCorners := assembleTopBottom corners
    if sortedCorners.length = 4 then sortedCorners else corners

/-- The detection-relevant state of the `DocumentCamera` component. -/
structure CamState where
  stableDetectionCount : ℤ
  consecutiveGoodDetections : ℤ
  lastGoodDetectionTime : ℤ
  autoCapturing : Bool
  autoMode : Bool
deriving DecidableEq, Repr

/-- Initial state of the component (`useState` initializers). -/
def initialCamState : CamState :=
  { stableDetectionCount := 0
    consecutiveGoodDetections := 0
    lastGoodDetectionTime := 0
    autoCapturing := false
    autoMode := true }

/-- Per-cycle outcome of detection as seen by the stability update:
a good detection at time `now`, a detected-but-rejected quadrilateral,
or no 4-corner candidate at all. -/
inductive Sample where
  | good (now : ℤ)
  | bad
  | absent
deriving DecidableEq, Repr

/-- Stability-counter update of the detection loop (`detectDocument`):
on a good detection, bump `consecutiveGoodDetections` when within 300ms
of the previous good one (else restart at 1), record the time, and bump
`stableDetectionCount` capped at 20; on a rejected or absent detection,
zero `consecutiveGoodDetections` and decrement `stableDetectionCount`
floored at 0. -/
def detectStep (s : CamState) (samp : Sample) : CamState :=
  match samp with
  | .good now =>
    { s with
      consecutiveGoodDetections :=
        if now - s.lastGoodDetectionTime < 300 then s.consecutiveGoodDetections + 1 else 1
      lastGoodDetectionTime := now
      stableDetectionCount := min (s.stableDetectionCount + 1) 20 }
  | .bad =>
    { s with
      consecutiveGoodDetections := 0
      stableDetectionCount := max (s.stableDetectionCount - 1) 0 }
  | .absent =>
    { s with
      consecutiveGoodDetections := 0
      stableDetectionCount := max (s.stableDetectionCount - 1) 0 }

/-- Condition of the auto-capture effect: either 3 consecutive good
detections or the stable-count fallback at 10, in auto mode, while not
already capturing. -/
def autoCaptureTrigger (s : CamState) : Bool :=
  (s.autoMode && decide (3 ≤ s.consecutiveGoodDetections) && !s.autoCapturing) ||
    (s.autoMode && decide (10 ≤ s.stableDetectionCount) && !s.autoCapturing)

/-- The auto-capture effect: when the trigger condition holds, set
`autoCapturing` and initiate a capture (the returned flag); otherwise
leave the state alone. -/
def autoCaptureStep (s : CamState) : CamState × Bool :=
  if autoCaptureTrigger s then ({ s with autoCapturing := true }, true)
  else (s, false)

/-- One full processing cycle: stability update then auto-capture check. -/
def cycleStep (s : CamState) (samp : Sample) : CamState × Bool :=
  autoCaptureStep (detectStep s samp)

/-- `toggleAutoMode`: flip the mode and zero both stability counters.
It touches nothing else — in particular not `autoCapturing`. -/
def toggleAutoMode (s : CamState) : CamState :=
  { s with
    autoMode := !s.autoMode
    stableDetectionCount := 0
    consecutiveGoodDetections := 0 }

/-- State effect of `simulateDocumentDetection`: force the stable count
to the capture-enabling value 15. -/
def simulateDetectionStep (s : CamState) : CamState :=
  { s with stableDetectionCount := 15 }

/-- State effect of `handleCapture`: the capture handler draws the frame
and emits it but changes none of the stability state. -/
def handleCaptureStep (s : CamState) : CamState := s

/-- State left behind by a manual capture: the capture button invokes
`handleCapture` directly. -/
def manualCaptureState (s : CamState) : CamState :=
  handleCaptureStep s

/-- State left behind by an automatic capture: the auto-capture effect
sets `autoCapturing` and then invokes the same `handleCapture`. -/
def autoCaptureState (s : CamState) : CamState :=
  handleCaptureStep { s with autoCapturing := true }

/-- States reachable by the camera component's operations on its
stability state, starting from the initial state. -/
inductive ReachableCamState : CamState → Prop where
  | init : ReachableCamState initialCamState
  | detect {s : CamState} (samp : Sample) :
      ReachableCamState s → ReachableCamState (detectStep s samp)
  | toggle {s : CamState} :
      ReachableCamState s → ReachableCamState (toggleAutoMode s)
  | simulate {s : CamState} :
      ReachableCamState s → ReachableCamState (simulateDetectionStep s)
  | autoCheck {s : CamState} :
      ReachableCamState s → ReachableCamState (autoCaptureStep s).1
  | capture {s : CamState} :
      ReachableCamState s → ReachableCamState (handleCaptureStep s)

/-- Output-dimension computation of `correctPerspective` (rectification
step 2): aspect ratio preserved; when the decoded intermediate image is
portrait the output width is 1240 and the height is rounded from it,
otherwise the output height is 1240 and the width is rounded. Returns
`(outputWidth, outputHeight)`. -/
def correctPerspectiveDims (w h : ℕ) : ℤ × ℤ :=
  let aspectRatio : ℚ := (w : ℚ) / (h : ℚ)
  if h > w then (1240, jsRound (1240 / aspectRatio))
  else (jsRound (1240 * aspectRatio), 1240)

/-- Claim C1: for every 4-point quadrilateral and positive frame
dimensions, the detection quality evaluator accepts exactly when the
shoelace-area ratio lies strictly between 0.1 and 0.9, the aspect ratio
from averaged opposite side lengths is within 0.3 of `1/1.414` or of
`1.414`, and the convexity test passes. -/
theorem evaluateDetectionQuality_iff_spec (a b c d : Pt) (frameWidth frameHeight : ℚ)
    (hW : 0 < frameWidth) (hH : 0 < frameHeight) :
    evaluateDetectionQuality [a, b, c, d] frameWidth frameHeight ↔
      qualityAcceptSpec a b c d frameWidth frameHeight := by
  simp only [evaluateDetectionQuality, qualityAcceptSpec, gt_iff_lt]
  tauto

/-- Witness for C1 at a concrete 500x707 quadrilateral in a 1000x1000 frame. -/
theorem evaluateDetectionQuality_iff_spec_witness :
    (0 < (1000 : ℚ) ∧ 0 < (1000 : ℚ)) ∧
      (evaluateDetectionQuality [⟨0, 0⟩, ⟨500, 0⟩, ⟨500, 707⟩, ⟨0, 707⟩] 1000 1000 ↔
        qualityAcceptSpec ⟨0, 0⟩ ⟨500, 0⟩ ⟨500, 707⟩ ⟨0, 707⟩ 1000 1000) :=
  ⟨⟨by norm_num, by norm_num⟩,
    evaluateDetectionQuality_iff_spec _ _ _ _ _ _ (by norm_num) (by norm_num)⟩


/-- Boolean trigger condition of the auto-capture effect, as a proposition. -/
theorem autoCaptureTrigger_iff (s : CamState) :
    autoCaptureTrigger s = true ↔
      s.autoMode = true ∧ s.autoCapturing = false ∧
        (3 ≤ s.consecutiveGoodDetections ∨ 10 ≤ s.stableDetectionCount) := by
  simp only [autoCaptureTrigger, Bool.or_eq_true, Bool.and_eq_true,
    Bool.not_eq_true', decide_eq_true_eq]
  tauto

/-- The fired flag of the auto-capture effect equals its trigger condition. -/
theorem autoCaptureStep_snd (s : CamState) :
    (autoCaptureStep s).2 = autoCaptureTrigger s := by
  unfold autoCaptureStep
  split <;> simp_all

/-- Claim C2: the auto-capture effect fires exactly when auto mode is on,
`autoCapturing` is false, and either 3 consecutive good detections or a
stable count of 10 has been reached; once `autoCapturing` is set no
further trigger fires; and from the initial state, 3 good samples each
within 300ms of the previous fire the capture exactly once, at the third
cycle, with no further fire on any later sample. -/
theorem autoCapture_trigger_spec :
    (∀ s : CamState, (autoCaptureStep s).2 = true ↔
        s.autoMode = true ∧ s.autoCapturing = false ∧
          (3 ≤ s.consecutiveGoodDetections ∨ 10 ≤ s.stableDetectionCount)) ∧
    (∀ s : CamState, s.autoCapturing = true →
        (autoCaptureStep s).2 = false ∧ (autoCaptureStep s).1 = s) ∧
    (∀ t1 t2 t3 : ℤ, t2 - t1 < 300 → t3 - t2 < 300 →
        (cycleStep initialCamState (.good t1)).2 = false ∧
        (cycleStep (cycleStep initialCamState (.good t1)).1 (.good t2)).2 = false ∧
        (cycleStep (cycleStep (cycleStep initialCamState (.good t1)).1 (.good t2)).1
          (.good t3)).2 = true ∧
        ∀ samp : Sample,
          (cycleStep (cycleStep (cycleStep (cycleStep initialCamState (.good t1)).1
            (.good t2)).1 (.good t3)).1 samp).2 = false) := by
  refine ⟨?_, ?_, ?_⟩
  · intro s
    rw [autoCaptureStep_snd, autoCaptureTrigger_iff]
  · intro s hs
    simp [autoCaptureStep, autoCaptureTrigger, hs]
  · intro t1 t2 t3 h12 h23
    have e1 : cycleStep initialCamState (.good t1) =
        ({ stableDetectionCount := 1, consecutiveGoodDetections := 1,
           lastGoodDetectionTime := t1, autoCapturing := false, autoMode := true }, false) := by
      simp [cycleStep, detectStep, initialCamState, autoCaptureStep, autoCaptureTrigger]
    have e2 : cycleStep (cycleStep initialCamState (.good t1)).1 (.good t2) =
        ({ stableDetectionCount := 2, consecutiveGoodDetections := 2,
           lastGoodDetectionTime := t2, autoCapturing := false, autoMode := true }, false) := by
      rw [e1]
      simp [cycleStep, detectStep, autoCaptureStep, autoCaptureTrigger, h12]
    have e3 : cycleStep (cycleStep (cycleStep initialCamState (.good t1)).1 (.good t2)).1
        (.good t3) =
        ({ stableDetectionCount := 3, consecutiveGoodDetections := 3,
           lastGoodDetectionTime := t3, autoCapturing := true, autoMode := true }, true) := by
      rw [e2]
      simp [cycleStep, detectStep, autoCaptureStep, autoCaptureTrigger, h23]
    refine ⟨by rw [e1], by rw [e2], by rw [e3], ?_⟩
    intro samp
    rw [e3]
    cases samp <;> simp [cycleStep, detectStep, autoCaptureStep, autoCaptureTrigger]

/-- Witness for C2 at concrete sample times 0, 100 and 200 milliseconds. -/
theorem autoCapture_trigger_spec_witness :
    ((100 : ℤ) - 0 < 300 ∧ (200 : ℤ) - 100 < 300) ∧
      (cycleStep (cycleStep (cycleStep initialCamState (.good 0)).1 (.good 100)).1
        (.good 200)).2 = true := by
  refine ⟨⟨by norm_num, by norm_num⟩, ?_⟩
  exact (autoCapture_trigger_spec.2.2 0 100 200 (by norm_num) (by norm_num)).2.2.1

/-- Claim C3: each processing cycle of the stability tracker increments
`consecutiveGoodDetections` on a good detection within 300ms of the
previous good one and resets it to 1 otherwise, records the time, and
increments the stable count capped at 20; a rejected or absent detection
zeroes `consecutiveGoodDetections` and decrements the stable count
floored at 0. -/
theorem detectStep_spec (s : CamState) (now : ℤ) :
    (detectStep s (.good now)).consecutiveGoodDetections =
        (if now - s.lastGoodDetectionTime < 300 then s.consecutiveGoodDetections + 1 else 1) ∧
    (detectStep s (.good now)).lastGoodDetectionTime = now ∧
    (detectStep s (.good now)).stableDetectionCount = min (s.stableDetectionCount + 1) 20 ∧
    (detectStep s .bad).consecutiveGoodDetections = 0 ∧
    (detectStep s .bad).stableDetectionCount = max (s.stableDetectionCount - 1) 0 ∧
    (detectStep s .absent).consecutiveGoodDetections = 0 ∧
    (detectStep s .absent).stableDetectionCount = max (s.stableDetectionCount - 1) 0 :=
  ⟨rfl, rfl, rfl, rfl, rfl, rfl, rfl⟩

/-- Counterexample to C4: four collinear points produce zero cross
products, yet the convexity test accepts them. -/
theorem isConvex_collinear_counterexample :
    crossProd ⟨0, 0⟩ ⟨1, 0⟩ ⟨2, 0⟩ = 0 ∧
      isConvexQuadrilateral [⟨0, 0⟩, ⟨1, 0⟩, ⟨2, 0⟩, ⟨3, 0⟩] = true := by
  norm_num [crossProd, isConvexQuadrilateral, jsSign]

/-- Claim C4 (amended): the convexity test accepts a quadrilateral iff
every consecutive-edge cross product has the same `Math.sign` value as
the first one; a zero cross product among nonzero ones therefore breaks
the run, but a fully degenerate quadrilateral whose cross products are
all zero is accepted. -/
theorem isConvex_iff_signs_equal (a b c d : Pt) :
    isConvexQuadrilateral [a, b, c, d] = true ↔
      ∀ z ∈ [crossProd a b c, crossProd b c d, crossProd c d a, crossProd d a b],
        jsSign z = jsSign (crossProd a b c) := by
  simp only [isConvexQuadrilateral, Bool.and_eq_true, beq_iff_eq,
    List.mem_cons, List.not_mem_nil, or_false, forall_eq_or_imp, forall_eq]
  tauto


/-- Witness instance of C4 at a concrete convex quadrilateral. -/
theorem isConvex_iff_signs_equal_witness :
    isConvexQuadrilateral [⟨0, 0⟩, ⟨10, 0⟩, ⟨10, 10⟩, ⟨0, 10⟩] = true ↔
      ∀ z ∈ [crossProd ⟨0, 0⟩ ⟨10, 0⟩ ⟨10, 10⟩, crossProd ⟨10, 0⟩ ⟨10, 10⟩ ⟨0, 10⟩,
          crossProd ⟨10, 10⟩ ⟨0, 10⟩ ⟨0, 0⟩, crossProd ⟨0, 10⟩ ⟨0, 0⟩ ⟨10, 0⟩],
        jsSign z = jsSign (crossProd ⟨0, 0⟩ ⟨10, 0⟩ ⟨10, 10⟩) :=
  isConvex_iff_signs_equal ⟨0, 0⟩ ⟨10, 0⟩ ⟨10, 10⟩ ⟨0, 10⟩

/-- Counterexample to C6: toggling the capture mode in a state with
`autoCapturing` set does not clear the flag. -/
theorem toggleAutoMode_counterexample :
    ¬ ((toggleAutoMode { initialCamState with autoCapturing := true }).stableDetectionCount = 0 ∧
       (toggleAutoMode { initialCamState with autoCapturing := true }).consecutiveGoodDetections = 0 ∧
       (toggleAutoMode { initialCamState with autoCapturing := true }).autoCapturing = false) := by
  simp [toggleAutoMode, initialCamState]

/-- Claim C6 (amended): toggling the capture mode zeroes the stable
count and the consecutive-good count and flips the mode, but leaves
`autoCapturing` unchanged. -/
theorem toggleAutoMode_spec (s : CamState) :
    (toggleAutoMode s).stableDetectionCount = 0 ∧
    (toggleAutoMode s).consecutiveGoodDetections = 0 ∧
    (toggleAutoMode s).autoCapturing = s.autoCapturing ∧
    (toggleAutoMode s).autoMode = !s.autoMode :=
  ⟨rfl, rfl, rfl, rfl⟩

/-- Counterexample to C7: from the initial state, an automatic capture
and a manual capture leave different states behind. -/
theorem captureStates_counterexample :
    autoCaptureState initialCamState ≠ manualCaptureState initialCamState := by
  simp [autoCaptureState, manualCaptureState, handleCaptureStep, initialCamState]

/-- Claim C7 (amended): the manual and the automatic capture path invoke
the same `handleCapture` entry point; neither resets the stability
counters, and only the automatic path sets `autoCapturing`, so the two
resulting states differ exactly in that flag. -/
theorem captureStates_spec (s : CamState) :
    manualCaptureState s = handleCaptureStep s ∧
    autoCaptureState s = handleCaptureStep { s with autoCapturing := true } ∧
    manualCaptureState s = s ∧
    (autoCaptureState s).stableDetectionCount = s.stableDetectionCount ∧
    (autoCaptureState s).consecutiveGoodDetections = s.consecutiveGoodDetections ∧
    (autoCaptureState s).autoCapturing = true :=
  ⟨rfl, rfl, rfl, rfl, rfl, rfl⟩

/-- Claim C8: the stable detection count lies in [0, 20] in every state
reachable by the camera component operations from the initial state. -/
theorem stableCount_invariant (s : CamState) (h : ReachableCamState s) :
    0 ≤ s.stableDetectionCount ∧ s.stableDetectionCount ≤ 20 := by
  induction h with
  | init => exact ⟨by norm_num [initialCamState], by norm_num [initialCamState]⟩
  | detect samp hs ih => cases samp <;> simp [detectStep] <;> omega
  | toggle hs ih => simp [toggleAutoMode]
  | simulate hs ih => simp [simulateDetectionStep]
  | autoCheck hs ih =>
    unfold autoCaptureStep
    split <;> simpa using ih
  | capture hs ih => exact ih

/-- Witness for C8 at the state reached by the simulated detection. -/
theorem stableCount_invariant_witness :
    ReachableCamState (simulateDetectionStep initialCamState) ∧
      (0 ≤ (simulateDetectionStep initialCamState).stableDetectionCount ∧
        (simulateDetectionStep initialCamState).stableDetectionCount ≤ 20) :=
  ⟨ReachableCamState.simulate ReachableCamState.init,
    stableCount_invariant _ (ReachableCamState.simulate ReachableCamState.init)⟩

/-- Rounding moves a rational by at most one half. -/
theorem jsRound_bounds (q : ℚ) :
    q - 1 / 2 ≤ (jsRound q : ℚ) ∧ (jsRound q : ℚ) ≤ q + 1 / 2 := by
  unfold jsRound
  constructor
  · have := Int.sub_one_lt_floor (q + 1 / 2)
    linarith
  · exact Int.floor_le _

/-- Counterexample to C5: a 200x100 intermediate image is normalized to
2480x1240, whose longer side is not the standard size 1240. -/
theorem correctPerspective_longSide_counterexample :
    correctPerspectiveDims 200 100 = (2480, 1240) ∧
      ¬ max (correctPerspectiveDims 200 100).1 (correctPerspectiveDims 200 100).2 = 1240 := by
  norm_num [correctPerspectiveDims, jsRound]

/-- Claim C5 (amended): for every positive intermediate image size the
normalization fixes the shorter output side at 1240, the orientation
follows whichever intermediate side is longer, and the aspect ratio is
preserved within rounding. -/
theorem correctPerspectiveDims_spec (w h : ℕ) (hw : 0 < w) (hh : 0 < h) :
    min (correctPerspectiveDims w h).1 (correctPerspectiveDims w h).2 = 1240 ∧
    (w < h → (correctPerspectiveDims w h).1 ≤ (correctPerspectiveDims w h).2) ∧
    (h ≤ w → (correctPerspectiveDims w h).2 ≤ (correctPerspectiveDims w h).1) ∧
    |((correctPerspectiveDims w h).2 : ℚ) * (w : ℚ) -
        ((correctPerspectiveDims w h).1 : ℚ) * (h : ℚ)| ≤ (min w h : ℚ) / 2 := by
  have hw' : (0 : ℚ) < w := by exact_mod_cast hw
  have hh' : (0 : ℚ) < h := by exact_mod_cast hh
  unfold correctPerspectiveDims
  by_cases hc : h > w
  · rw [if_pos hc]
    have hwh : (w : ℚ) ≤ h := by exact_mod_cast hc.le
    have harg : (1240 : ℚ) / ((w : ℚ) / (h : ℚ)) = 1240 * h / w := by
      field_simp
    rw [harg]
    set r : ℚ := 1240 * h / w with hr
    have hrw : r * w = 1240 * h := by
      rw [hr]; field_simp
    have hr_ge : (1240 : ℚ) ≤ r := by
      rw [hr, le_div_iff₀ hw']
      nlinarith
    obtain ⟨hlo, hhi⟩ := jsRound_bounds r
    have h1240 : (1240 : ℤ) ≤ jsRound r := by
      unfold jsRound
      rw [Int.le_floor]
      push_cast
      linarith
    refine ⟨?_, ?_, ?_, ?_⟩
    · simp only []
      omega
    · intro _
      simpa using h1240
    · intro hle
      omega
    · simp only []
      have hmin : min (w : ℚ) (h : ℚ) = w := min_eq_left hwh
      rw [hmin]
      push_cast
      have : |(jsRound r : ℚ) * w - 1240 * h| = |(jsRound r : ℚ) - r| * w := by
        rw [← hrw, ← sub_mul, abs_mul, abs_of_pos hw']
      rw [this]
      have habs : |(jsRound r : ℚ) - r| ≤ 1 / 2 := abs_le.mpr ⟨by linarith, by linarith⟩
      calc |(jsRound r : ℚ) - r| * w ≤ (1 / 2) * w := by
            apply mul_le_mul_of_nonneg_right habs hw'.le
        _ = w / 2 := by ring
  · rw [if_neg hc]
    have hc' : h ≤ w := by omega
    have hwh : (h : ℚ) ≤ w := by exact_mod_cast hc'
    have harg : (1240 : ℚ) * ((w : ℚ) / (h : ℚ)) = 1240 * w / h := by
      ring
    rw [harg]
    set r : ℚ := 1240 * w / h with hr
    have hrw : r * h = 1240 * w := by
      rw [hr]; field_simp
    have hr_ge : (1240 : ℚ) ≤ r := by
      rw [hr, le_div_iff₀ hh']
      nlinarith
    obtain ⟨hlo, hhi⟩ := jsRound_bounds r
    have h1240 : (1240 : ℤ) ≤ jsRound r := by
      unfold jsRound
      rw [Int.le_floor]
      push_cast
      linarith
    refine ⟨?_, ?_, ?_, ?_⟩
    · simp only []
      omega
    · intro hlt
      omega
    · intro _
      simpa using h1240
    · simp only []
      have hmin : min (w : ℚ) (h : ℚ) = h := min_eq_right hwh
      rw [hmin]
      push_cast
      have : |(1240 : ℚ) * w - (jsRound r : ℚ) * h| = |r - (jsRound r : ℚ)| * h := by
        rw [← hrw, ← sub_mul, abs_mul, abs_of_pos hh']
      rw [this]
      have habs : |r - (jsRound r : ℚ)| ≤ 1 / 2 := abs_le.mpr ⟨by linarith, by linarith⟩
      calc |r - (jsRound r : ℚ)| * h ≤ (1 / 2) * h := by
            apply mul_le_mul_of_nonneg_right habs hh'.le
        _ = h / 2 := by ring

/-- Witness for C5 at the concrete 200x100 intermediate image. -/
theorem correctPerspectiveDims_spec_witness :
    (0 < 200 ∧ 0 < 100) ∧
      min (correctPerspectiveDims 200 100).1 (correctPerspectiveDims 200 100).2 = 1240 :=
  ⟨⟨by norm_num, by norm_num⟩,
    (correctPerspectiveDims_spec 200 100 (by norm_num) (by norm_num)).1⟩

/-- Claim C9: on any already-ordered quadrilateral (a fixed point of the
ordering) each corner-ordering policy returns the same order when
applied again. -/
theorem sortCorners_idempotent_on_fixed (q q' : List Pt)
    (hq : sortCornersQuadrant q = q) (hq' : sortCornersTopBottom q' = q') :
    sortCornersQuadrant (sortCornersQuadrant q) = q ∧
      sortCornersTopBottom (sortCornersTopBottom q') = q' :=
  ⟨by rw [hq, hq], by rw [hq', hq']⟩

/-- Witness for C9: the axis-aligned square in canonical order is a
fixed point of both ordering policies. -/
theorem sortCorners_idempotent_on_fixed_witness :
    sortCornersQuadrant [⟨0, 0⟩, ⟨10, 0⟩, ⟨10, 10⟩, ⟨0, 10⟩] =
        [⟨0, 0⟩, ⟨10, 0⟩, ⟨10, 10⟩, ⟨0, 10⟩] ∧
    sortCornersTopBottom [⟨0, 0⟩, ⟨10, 0⟩, ⟨10, 10⟩, ⟨0, 10⟩] =
        [⟨0, 0⟩, ⟨10, 0⟩, ⟨10, 10⟩, ⟨0, 10⟩] ∧
    (sortCornersQuadrant (sortCornersQuadrant [⟨0, 0⟩, ⟨10, 0⟩, ⟨10, 10⟩, ⟨0, 10⟩]) =
        [⟨0, 0⟩, ⟨10, 0⟩, ⟨10, 10⟩, ⟨0, 10⟩] ∧
      sortCornersTopBottom (sortCornersTopBottom [⟨0, 0⟩, ⟨10, 0⟩, ⟨10, 10⟩, ⟨0, 10⟩]) =
        [⟨0, 0⟩, ⟨10, 0⟩, ⟨10, 10⟩, ⟨0, 10⟩]) := by
  have h1 : sortCornersQuadrant [⟨0, 0⟩, ⟨10, 0⟩, ⟨10, 10⟩, ⟨0, 10⟩] =
      [⟨0, 0⟩, ⟨10, 0⟩, ⟨10, 10⟩, ⟨0, 10⟩] := by
    norm_num [sortCornersQuadrant, centerOf, List.insertionSort, List.orderedInsert,
      quadrantCmpLe, getQuadrant]
  have h2 : sortCornersTopBottom [⟨0, 0⟩, ⟨10, 0⟩, ⟨10, 10⟩, ⟨0, 10⟩] =
      [⟨0, 0⟩, ⟨10, 0⟩, ⟨10, 10⟩, ⟨0, 10⟩] := by
    norm_num [sortCornersTopBottom, assembleTopBottom, centerOf, sortByX,
      List.insertionSort, List.orderedInsert, List.filter]
  exact ⟨h1, h2, sortCorners_idempotent_on_fixed _ _ h1 h2⟩

/-- Claim C10: on four points sharing one `y` coordinate the top/bottom
split policy of `part_000` returns only 2 points, while the
ImageProcessing copy detects the short assembly and returns the input
unchanged. -/
theorem sortCorners_degenerate_divergence :
    sortCornersTopBottom [⟨0, 5⟩, ⟨1, 5⟩, ⟨2, 5⟩, ⟨3, 5⟩] = [⟨3, 5⟩, ⟨0, 5⟩] ∧
    (sortCornersTopBottom [⟨0, 5⟩, ⟨1, 5⟩, ⟨2, 5⟩, ⟨3, 5⟩]).length = 2 ∧
    sortCornersImageProcessing [⟨0, 5⟩, ⟨1, 5⟩, ⟨2, 5⟩, ⟨3, 5⟩] =
      [⟨0, 5⟩, ⟨1, 5⟩, ⟨2, 5⟩, ⟨3, 5⟩] := by
  refine ⟨?_, ?_, ?_⟩ <;>
    norm_num [sortCornersTopBottom, sortCornersImageProcessing, assembleTopBottom,
      centerOf, sortByX, List.insertionSort, List.orderedInsert, List.filter]
